import Mathlib

/-!
DynamicVINO: input-device accessors and the annotated display sink

A shallow embedding of

* `src/include/openvino_service/inputs/base_input.h` (`Input::BaseInputDevice`), and
* `src/samples/common/io_devices/output.cpp` (`ImageWindow::feedFrame`,
  `ImageWindow::prepareData`, `ImageWindow::handleOutput`).

Conventions of the embedding.

* Member functions become functions on an explicit object state; a `void` member returns
  the new state.
* An image (`cv::Mat`) is its pixel payload as fed plus the log of the drawing calls that
  were applied to it afterwards, in order.  A drawing call records every argument the source
  passes to OpenCV.
* `std::ostringstream` is a small state machine: buffer, float-field flag, precision.
* The numeric fields of a detection result are finite numbers, represented by their exact
  value in `ℚ` (every finite binary floating-point value is a rational).  NaN, infinities and
  negative zero are outside the embedding.
* Pixel coordinates (`cv::Rect` is `cv::Rect_<int>`) are mathematical integers; the conversion
  `int → float` performed by `cv::Point2f(...)` is exact for magnitudes up to `2^24` and is
  not modelled.
-/

namespace Input

/-- State of `Input::BaseInputDevice`: the three private members `width_`, `height_`,
`is_init_` (base_input.h, lines 75-77).  `size_t` values are natural numbers; the accessors
perform no arithmetic on them. -/
structure BaseInputDevice where
  width_ : Nat
  height_ : Nat
  is_init_ : Bool
  deriving DecidableEq, Repr

namespace BaseInputDevice

/-- The constructor `BaseInputDevice() = default` with the default member initialisers
`width_ = 0`, `height_ = 0`, `is_init_ = false` (lines 18, 75-77). -/
def new : BaseInputDevice := ⟨0, 0, false⟩

/-- Line 48: `inline size_t getWidth() { return width_; }`. -/
def getWidth (self : BaseInputDevice) : Nat := self.width_

/-- Line 53: `inline void setWidth(size_t width) { width_ = width; }`. -/
def setWidth (width : Nat) (self : BaseInputDevice) : BaseInputDevice :=
  ⟨width, self.height_, self.is_init_⟩

/-- Line 58: `inline size_t getHeight() { return height_; }`. -/
def getHeight (self : BaseInputDevice) : Nat := self.height_

/-- Line 63: `inline void setHeight(size_t height) { height_ = height; }`. -/
def setHeight (height : Nat) (self : BaseInputDevice) : BaseInputDevice :=
  ⟨self.width_, height, self.is_init_⟩

/-- Line 68: `inline bool isInit() { return is_init_; }`. -/
def isInit (self : BaseInputDevice) : Bool := self.is_init_

/-- Line 73: `inline void setInitStatus(bool is_init) { is_init_ = is_init; }`. -/
def setInitStatus (is_init : Bool) (self : BaseInputDevice) : BaseInputDevice :=
  ⟨self.width_, self.height_, is_init⟩

end BaseInputDevice

end Input

/-! ## The OpenCV values the sink passes around -/

namespace cv

/-- The point type `cv::Point2f`, holding the two coordinates handed to its constructor. -/
structure Point2f where
  x : Int
  y : Int
  deriving DecidableEq, Repr

/-- The integer rectangle `cv::Rect`: top-left corner, width and height. -/
structure Rect where
  x : Int
  y : Int
  width : Int
  height : Int
  deriving DecidableEq, Repr

/-- Top-left corner, `cv::Rect::tl()`. -/
def Rect.tl (r : Rect) : Int × Int := (r.x, r.y)

/-- Bottom-right corner, `cv::Rect::br()`, that is `(x + width, y + height)`. -/
def Rect.br (r : Rect) : Int × Int := (r.x + r.width, r.y + r.height)

/-- The four-channel value `cv::Scalar`. -/
structure Scalar where
  v0 : Int
  v1 : Int
  v2 : Int
  v3 : Int
  deriving DecidableEq, Repr

/-- The three-argument constructor `cv::Scalar(v0, v1, v2)`; the fourth channel is `0`. -/
def Scalar.of3 (v0 v1 v2 : Int) : Scalar := ⟨v0, v1, v2, 0⟩

/-- The two members of `cv::HersheyFonts` used by the sink. -/
inductive HersheyFonts where
  | FONT_HERSHEY_TRIPLEX
  | FONT_HERSHEY_COMPLEX_SMALL
  deriving DecidableEq, Repr

/-- One call of an OpenCV drawing primitive, with the arguments the source passes. -/
inductive DrawCall where
  | putText (text : String) (org : Point2f) (fontFace : HersheyFonts) (fontScale : ℚ)
      (color : Scalar)
  | rectangle (rec : Rect) (color : Scalar) (thickness : Int)
  deriving DecidableEq

/-- An image: size, pixel payload as handed over by the producer, and the drawing calls
applied to it since, oldest first. -/
structure Mat where
  rows : Nat
  cols : Nat
  data : List Scalar
  calls : List DrawCall
  deriving DecidableEq

/-- The black image `cv::Mat::zeros(rows, cols, ...)`: every pixel zero, nothing drawn. -/
def Mat.zeros (rows cols : Nat) : Mat :=
  ⟨rows, cols, List.replicate (rows * cols) (Scalar.of3 0 0 0), []⟩

/-- The primitive `cv::putText(img, text, org, fontFace, fontScale, color)`: one more drawing
call on `img`. -/
def putText (img : Mat) (text : String) (org : Point2f) (fontFace : HersheyFonts)
    (fontScale : ℚ) (color : Scalar) : Mat :=
  ⟨img.rows, img.cols, img.data,
    img.calls ++ [DrawCall.putText text org fontFace fontScale color]⟩

/-- The primitive `cv::rectangle(img, rec, color, thickness)`: one more drawing call on
`img`. -/
def rectangle (img : Mat) (rec : Rect) (color : Scalar) (thickness : Int) : Mat :=
  ⟨img.rows, img.cols, img.data, img.calls ++ [DrawCall.rectangle rec color thickness]⟩

/-- The characters a drawing call renders: those of its text for `putText` (which draws one
glyph per character of the string), none for `rectangle`. -/
def DrawCall.glyphs : DrawCall → List Char
  | DrawCall.putText text _ _ _ _ => text.data
  | DrawCall.rectangle _ _ _ => []

/-- Whether a drawing call is a text-rendering call. -/
def DrawCall.isText : DrawCall → Bool
  | DrawCall.putText _ _ _ _ _ => true
  | DrawCall.rectangle _ _ _ => false

/-- Every character rendered onto the image so far, in drawing order. -/
def Mat.glyphs (m : Mat) : List Char := (m.calls.map DrawCall.glyphs).flatten

/-- The text-rendering calls applied to the image so far. -/
def Mat.textCalls (m : Mat) : List DrawCall := m.calls.filter DrawCall.isText

/-- The rectangle calls applied to the image so far. -/
def Mat.rectCalls (m : Mat) : List DrawCall := m.calls.filter (fun c => !c.isText)

/-- The display: the sequence of `cv::imshow(winname, mat)` presentations, oldest first. -/
abbrev HighGui := List (String × Mat)

/-- The primitive `cv::imshow(winname, mat)`. -/
def imshow (gui : HighGui) (winname : String) (mat : Mat) : HighGui := gui ++ [(winname, mat)]

end cv

/-! ## Fixed-notation output of a finite number -/

/-- Nearest integer, ties to the even neighbour: the rounding the C library applies to the
exact value when it prints with a limited number of decimals. -/
def roundHalfEven (q : ℚ) : ℤ :=
  let k := ⌊q⌋
  let r := q - k
  if r < 1 / 2 then k
  else if 1 / 2 < r then k + 1
  else if k % 2 = 0 then k else k + 1

/-- Left-pad a digit string with `'0'` up to `p` characters. -/
def zeroPad (p : Nat) (s : String) : String :=
  String.mk (List.replicate (p - s.length) '0') ++ s

/-- Decimal rendering of the scaled integer `n`, read as `n / 10^p`: the integer part, and for
`p > 0` a decimal point followed by exactly `p` fraction digits. -/
def scaledStr (p : Nat) (n : Nat) : String :=
  Nat.repr (n / 10 ^ p) ++ (if p = 0 then "" else "." ++ zeroPad p (Nat.repr (n % 10 ^ p)))

/-- What `operator<<` writes for a finite floating-point value `v` when the stream is in
`std::fixed` notation with precision `p` (the `printf` conversion `%.pf`): an optional minus
sign and `|v|` rounded to `p` decimals. -/
def fixedStr (p : Nat) (v : ℚ) : String :=
  (if v < 0 then "-" else "") ++ scaledStr p (roundHalfEven (|v| * 10 ^ p)).toNat

/-! ## `std::ostringstream` -/

/-- The float-field of a stream: unset (the default notation) or `std::fixed`. -/
inductive FloatField where
  | unset
  | fixed
  deriving DecidableEq, Repr

/-- State of a `std::ostringstream`: the buffer and the two formatting settings the sink
touches. -/
structure OStringStream where
  buf : String
  floatfield : FloatField
  precision : Nat
  deriving DecidableEq, Repr

namespace OStringStream

/-- A default-constructed stream (`std::ostringstream out;`): empty buffer, default notation,
precision 6. -/
def new : OStringStream := ⟨"", FloatField.unset, 6⟩

/-- The member `out.str(s)`: replace the buffer. -/
def setStr (s : String) (out : OStringStream) : OStringStream :=
  ⟨s, out.floatfield, out.precision⟩

/-- The member `out.str()`: the buffer. -/
def str (out : OStringStream) : String := out.buf

/-- The insertion `out << s` for a string `s`. -/
def putStr (s : String) (out : OStringStream) : OStringStream :=
  ⟨out.buf ++ s, out.floatfield, out.precision⟩

/-- The manipulator `out << std::fixed`. -/
def fixed (out : OStringStream) : OStringStream :=
  ⟨out.buf, FloatField.fixed, out.precision⟩

/-- The manipulator `out << std::setprecision(n)`. -/
def setprecision (n : Nat) (out : OStringStream) : OStringStream :=
  ⟨out.buf, out.floatfield, n⟩

/-- The insertion `out << v` for a floating-point `v`.  In `std::fixed` notation the text is
`fixedStr`; the text of the default notation is the parameter `dflt` (precision and value to
text), left arbitrary. -/
def putFloat (dflt : Nat → ℚ → String) (v : ℚ) (out : OStringStream) : OStringStream :=
  match out.floatfield with
  | FloatField.fixed => ⟨out.buf ++ fixedStr out.precision v, out.floatfield, out.precision⟩
  | FloatField.unset => ⟨out.buf ++ dflt out.precision v, out.floatfield, out.precision⟩

end OStringStream

/-! ## The sink -/

namespace DetectionClass

/-- Modelled from the spec: the type `DetectionClass::Detection::Result`, declared in a header
that is not among the sources.  The spec's data model gives it a rectangle `location`, a text
`label`, and the numbers `confidence`, `male_prob` and `age`, each with `-1` meaning
"absent". -/
structure Result where
  label : String
  confidence : ℚ
  location : cv.Rect
  male_prob : ℚ
  age : ℚ
  deriving DecidableEq

end DetectionClass

/-- State of an `ImageWindow`: the members `frame_` and `window_name_` used by output.cpp. -/
structure ImageWindow where
  frame_ : cv.Mat
  window_name_ : String
  deriving DecidableEq

namespace ImageWindow

/-- Lines 7-9 of output.cpp: `frame_ = frame;`. -/
def feedFrame (frame : cv.Mat) (self : ImageWindow) : ImageWindow :=
  ⟨frame, self.window_name_⟩

/-- Lines 13-28 of output.cpp: the stream `out` when control reaches the `putText` call.
The local `rect` of line 14 is never read and has no counterpart here. -/
def prepareDataOut (dflt : Nat → ℚ → String) (result : DetectionClass.Result) :
    OStringStream :=
  let out := OStringStream.new
  let out := out.setStr ""
  let out :=
    if result.confidence ≥ 0 then
      (((((((out.putStr "face detection confidence: ").putStr result.label).putStr ": ").fixed
        ).setprecision 3).putFloat dflt result.confidence).putStr ",")
    else out
  let out :=
    if result.male_prob ≥ 0 ∧ result.age ≥ 0 then
      let out := ((out.putStr "Gender: ").putStr
        (if result.male_prob > 1 / 2 then "M" else "F")).putStr ","
      ((((((out.putStr "Age: ").fixed).setprecision 0).putStr ",").putFloat dflt
        result.age).putStr ",")
    else out
  out

/-- Lines 11-37 of output.cpp, `ImageWindow::prepareData`: compose the text, draw it with
`cv::putText` at `(location.x, location.y - 15)`, then draw the rectangle. -/
def prepareData (dflt : Nat → ℚ → String) (result : DetectionClass.Result)
    (self : ImageWindow) : ImageWindow :=
  let out := prepareDataOut dflt result
  let frame := cv.putText self.frame_ out.str
    ⟨result.location.x, result.location.y - 15⟩
    cv.HersheyFonts.FONT_HERSHEY_COMPLEX_SMALL (8 / 10) (cv.Scalar.of3 0 0 255)
  let frame := cv.rectangle frame result.location (cv.Scalar.of3 100 100 100) 1
  ⟨frame, self.window_name_⟩

/-- Lines 39-47 of output.cpp, `ImageWindow::handleOutput`: draw the header text, then
present the frame with `cv::imshow` under `window_name_`. -/
def handleOutput (overall_output_text : String) (self : ImageWindow) (gui : cv.HighGui) :
    ImageWindow × cv.HighGui :=
  let frame := cv.putText self.frame_ overall_output_text ⟨0, 65⟩
    cv.HersheyFonts.FONT_HERSHEY_TRIPLEX (5 / 10) (cv.Scalar.of3 255 0 0)
  (⟨frame, self.window_name_⟩, cv.imshow gui self.window_name_ frame)

end ImageWindow

/-! ## The text composed by `prepareData` -/

/-- The confidence block of lines 17-22: present exactly when `confidence >= 0`. -/
def confidenceBlock (result : DetectionClass.Result) : String :=
  if result.confidence ≥ 0 then
    "face detection confidence: " ++ result.label ++ ": " ++ fixedStr 3 result.confidence ++ ","
  else ""

/-- The gender/age block of lines 23-28: present exactly when `male_prob >= 0 && age >= 0`. -/
def genderAgeBlock (result : DetectionClass.Result) : String :=
  if result.male_prob ≥ 0 ∧ result.age ≥ 0 then
    "Gender: " ++ (if result.male_prob > 1 / 2 then "M" else "F") ++ ",Age: ," ++
      fixedStr 0 result.age ++ ","
  else ""

/-! ## Concrete inputs used in the worked examples -/

/-- A sink as constructed, before any frame was fed: an empty image and a window name. -/
def freshWindow : ImageWindow := ⟨cv.Mat.zeros 0 0, "Results"⟩

/-- A stand-in for the text of the default float notation, which the sink never uses. -/
def noDefaultNotation : Nat → ℚ → String := fun _ _ => ""

/-- The detection of the end-to-end scenario: location `(10,10,20,20)`, label `face`,
confidence `0.5`, gender and age absent. -/
def scenarioResult : DetectionClass.Result := ⟨"face", 1 / 2, ⟨10, 10, 20, 20⟩, -1, -1⟩

/-- A detection with every numeric field absent. -/
def absentResult : DetectionClass.Result := ⟨"face", -1, ⟨10, 10, 20, 20⟩, -1, -1⟩

/-- A detection carrying confidence `0.5`, male probability `0.9` and age `30.4`. -/
def fullResult : DetectionClass.Result := ⟨"face", 1 / 2, ⟨10, 10, 20, 20⟩, 9 / 10, 152 / 5⟩

/-! ## Facts about the number formatting -/

/-- The rounding is to a nearest integer. -/
theorem roundHalfEven_near (q : ℚ) : |(roundHalfEven q : ℚ) - q| ≤ 1 / 2 := by
  have h1 : ((⌊q⌋ : ℤ) : ℚ) ≤ q := Int.floor_le q
  have h2 : q < ((⌊q⌋ : ℤ) : ℚ) + 1 := Int.lt_floor_add_one q
  unfold roundHalfEven
  simp only
  rw [abs_le]
  split_ifs with ha hb hc
  · constructor <;> linarith
  · push_cast
    constructor <;> linarith
  · constructor <;> linarith
  · push_cast
    have hd : q - ((⌊q⌋ : ℤ) : ℚ) = 1 / 2 := le_antisymm (not_lt.mp hb) (not_lt.mp ha)
    constructor <;> linarith

/-- A value strictly between `n - 1/2` and `n + 1/2` rounds to `n`. -/
theorem roundHalfEven_eq_of_near (q : ℚ) (n : ℤ) (h1 : (n : ℚ) - 1 / 2 < q)
    (h2 : q < (n : ℚ) + 1 / 2) : roundHalfEven q = n := by
  have hn := roundHalfEven_near q
  rw [abs_le] at hn
  have hlt : (roundHalfEven q : ℚ) < (n : ℚ) + 1 := by linarith [hn.2]
  have hgt : (n : ℚ) - 1 < (roundHalfEven q : ℚ) := by linarith [hn.1]
  have hlt2 : roundHalfEven q < n + 1 := by exact_mod_cast hlt
  have hgt2 : n - 1 < roundHalfEven q := by exact_mod_cast hgt
  omega

/-- A non-negative value rounds to a non-negative integer. -/
theorem roundHalfEven_nonneg (q : ℚ) (hq : 0 ≤ q) : 0 ≤ roundHalfEven q := by
  have hfl : 0 ≤ ⌊q⌋ := Int.floor_nonneg.mpr hq
  unfold roundHalfEven
  simp only
  split_ifs <;> omega

/-- Fixed-notation text of a non-negative value, in terms of the rounded scaled integer. -/
theorem fixedStr_of_nonneg (p : Nat) (v : ℚ) (hv : 0 ≤ v) :
    fixedStr p v = scaledStr p (roundHalfEven (v * 10 ^ p)).toNat := by
  unfold fixedStr
  rw [if_neg (not_lt.mpr hv), abs_of_nonneg hv]
  simp

/-- For a non-negative value, the fixed-notation text is the decimal rendering of a natural
number `n` of `10^-p` units that lies within half a unit of the value. -/
theorem fixedStr_rounds (p : Nat) (v : ℚ) (hv : 0 ≤ v) :
    ∃ n : Nat, |(n : ℚ) - v * 10 ^ p| ≤ 1 / 2 ∧ fixedStr p v = scaledStr p n := by
  have hs : 0 ≤ v * 10 ^ p := mul_nonneg hv (by positivity)
  refine ⟨(roundHalfEven (v * 10 ^ p)).toNat, ?_, fixedStr_of_nonneg p v hv⟩
  have hcast : (((roundHalfEven (v * 10 ^ p)).toNat : ℤ) : ℚ) = (roundHalfEven (v * 10 ^ p) : ℚ) := by
    rw [Int.toNat_of_nonneg (roundHalfEven_nonneg _ hs)]
  have hcast2 : (((roundHalfEven (v * 10 ^ p)).toNat : ℕ) : ℚ)
      = (roundHalfEven (v * 10 ^ p) : ℚ) := by
    rw [← hcast]; norm_cast
  rw [hcast2]
  exact roundHalfEven_near _

/-- Padding a string of at most `p` characters yields exactly `p` characters. -/
theorem zeroPad_length (p : Nat) (s : String) (h : s.length ≤ p) :
    (zeroPad p s).length = p := by
  unfold zeroPad
  rw [String.length_append]
  show (List.replicate (p - s.length) '0').length + s.length = p
  rw [List.length_replicate]
  omega

/-- The fraction digits written by `scaledStr` are exactly `p` characters. -/
theorem fraction_length (p n : Nat) (hp : 0 < p) :
    (zeroPad p (Nat.repr (n % 10 ^ p))).length = p :=
  zeroPad_length p _ (Nat.repr_length _ p hp (Nat.mod_lt _ (by positivity)))

/-! ## The text composed by `prepareData`: the buffer of `out` -/

/-- The buffer of `out` at the `putText` call is the confidence block followed by the
gender/age block, whatever the default float notation would print. -/
theorem prepareDataOut_str (dflt : Nat → ℚ → String) (result : DetectionClass.Result) :
    (ImageWindow.prepareDataOut dflt result).str
      = confidenceBlock result ++ genderAgeBlock result := by
  unfold ImageWindow.prepareDataOut confidenceBlock genderAgeBlock
  by_cases hc : result.confidence ≥ 0 <;> by_cases hg : result.male_prob ≥ 0 ∧ result.age ≥ 0 <;>
    simp only [hc, hg, if_true, if_false, OStringStream.new, OStringStream.setStr,
      OStringStream.putStr, OStringStream.fixed, OStringStream.setprecision,
      OStringStream.putFloat, OStringStream.str] <;>
    apply String.ext <;>
    simp [String.data_append]

/-- The drawing calls of `prepareData`: the composed text at `(location.x, location.y - 15)`,
then the rectangle. -/
theorem prepareData_calls (dflt : Nat → ℚ → String) (result : DetectionClass.Result)
    (self : ImageWindow) :
    (ImageWindow.prepareData dflt result self).frame_.calls = self.frame_.calls ++
      [cv.DrawCall.putText (confidenceBlock result ++ genderAgeBlock result)
          ⟨result.location.x, result.location.y - 15⟩
          cv.HersheyFonts.FONT_HERSHEY_COMPLEX_SMALL (8 / 10) (cv.Scalar.of3 0 0 255),
        cv.DrawCall.rectangle result.location (cv.Scalar.of3 100 100 100) 1] := by
  rw [← prepareDataOut_str dflt result]
  simp [ImageWindow.prepareData, cv.putText, cv.rectangle]

/-- The characters on the frame after `prepareData`: those before, then the composed text. -/
theorem prepareData_glyphs (dflt : Nat → ℚ → String) (result : DetectionClass.Result)
    (self : ImageWindow) :
    (ImageWindow.prepareData dflt result self).frame_.glyphs
      = self.frame_.glyphs ++ (ImageWindow.prepareDataOut dflt result).str.data := by
  unfold cv.Mat.glyphs
  rw [prepareData_calls, prepareDataOut_str]
  simp [cv.DrawCall.glyphs]

/-- The text-rendering calls after `prepareData`: those before, then one more. -/
theorem prepareData_textCalls (dflt : Nat → ℚ → String) (result : DetectionClass.Result)
    (self : ImageWindow) :
    (ImageWindow.prepareData dflt result self).frame_.textCalls = self.frame_.textCalls ++
      [cv.DrawCall.putText (confidenceBlock result ++ genderAgeBlock result)
          ⟨result.location.x, result.location.y - 15⟩
          cv.HersheyFonts.FONT_HERSHEY_COMPLEX_SMALL (8 / 10) (cv.Scalar.of3 0 0 255)] := by
  unfold cv.Mat.textCalls
  rw [prepareData_calls]
  simp [cv.DrawCall.isText]

/-- The rectangle calls after `prepareData`: those before, then the one at `location`. -/
theorem prepareData_rectCalls (dflt : Nat → ℚ → String) (result : DetectionClass.Result)
    (self : ImageWindow) :
    (ImageWindow.prepareData dflt result self).frame_.rectCalls = self.frame_.rectCalls ++
      [cv.DrawCall.rectangle result.location (cv.Scalar.of3 100 100 100) 1] := by
  unfold cv.Mat.rectCalls
  rw [prepareData_calls]
  simp [cv.DrawCall.isText]

/-- With `confidence < 0` the confidence block is empty. -/
theorem confidenceBlock_of_neg (result : DetectionClass.Result) (h : result.confidence < 0) :
    confidenceBlock result = "" := by
  unfold confidenceBlock
  rw [if_neg (not_le.mpr h)]

/-- With `male_prob < 0` or `age < 0` the gender/age block is empty. -/
theorem genderAgeBlock_of_neg (result : DetectionClass.Result)
    (h : result.male_prob < 0 ∨ result.age < 0) : genderAgeBlock result = "" := by
  unfold genderAgeBlock
  rw [if_neg]
  rintro ⟨h1, h2⟩
  rcases h with h | h
  · exact absurd h1 (not_le.mpr h)
  · exact absurd h2 (not_le.mpr h)

/-- Fixed notation with three decimals of `0.5`. -/
theorem fixedStr_three_half : fixedStr 3 (1 / 2) = "0.500" := by
  rw [fixedStr_of_nonneg 3 (1 / 2) (by norm_num),
    roundHalfEven_eq_of_near _ 500 (by norm_num) (by norm_num)]
  decide

/-- Fixed notation with zero decimals of any value strictly between `29.5` and `30.5`. -/
theorem fixedStr_zero_thirty (a : ℚ) (h1 : 59 / 2 < a) (h2 : a < 61 / 2) :
    fixedStr 0 a = "30" := by
  rw [fixedStr_of_nonneg 0 a (by linarith),
    roundHalfEven_eq_of_near _ 30 (by norm_num; linarith) (by norm_num; linarith)]
  decide

/-! ## The claims about `ImageWindow::prepareData` -/

/-- C1: for every detection result with `confidence = -1`, `male_prob = -1` and `age = -1`
(any location, any label) the string composed by `prepareData` is empty; the calls it issues
are `putText` of that empty string and the rectangle at `result.location`, so no character is
rendered onto the frame and the only shape added is the bounding rectangle; the pixel payload
and the window name are untouched. -/
theorem prepareData_absent_draws_only_rectangle (dflt : Nat → ℚ → String)
    (result : DetectionClass.Result) (self : ImageWindow)
    (hc : result.confidence = -1) (hm : result.male_prob = -1) (ha : result.age = -1) :
    (ImageWindow.prepareDataOut dflt result).str = "" ∧
    (ImageWindow.prepareData dflt result self).frame_.calls = self.frame_.calls ++
      [cv.DrawCall.putText "" ⟨result.location.x, result.location.y - 15⟩
          cv.HersheyFonts.FONT_HERSHEY_COMPLEX_SMALL (8 / 10) (cv.Scalar.of3 0 0 255),
        cv.DrawCall.rectangle result.location (cv.Scalar.of3 100 100 100) 1] ∧
    (ImageWindow.prepareData dflt result self).frame_.glyphs = self.frame_.glyphs ∧
    (ImageWindow.prepareData dflt result self).frame_.rectCalls = self.frame_.rectCalls ++
      [cv.DrawCall.rectangle result.location (cv.Scalar.of3 100 100 100) 1] ∧
    (ImageWindow.prepareData dflt result self).frame_.data = self.frame_.data ∧
    (ImageWindow.prepareData dflt result self).window_name_ = self.window_name_ := by
  have h1 : confidenceBlock result = "" :=
    confidenceBlock_of_neg result (by rw [hc]; norm_num)
  have h2 : genderAgeBlock result = "" :=
    genderAgeBlock_of_neg result (Or.inl (by rw [hm]; norm_num))
  have h3 : genderAgeBlock result = "" :=
    genderAgeBlock_of_neg result (Or.inr (by rw [ha]; norm_num))
  have hstr : (ImageWindow.prepareDataOut dflt result).str = "" := by
    rw [prepareDataOut_str, h1, h3]; rfl
  refine ⟨hstr, ?_, ?_, prepareData_rectCalls dflt result self, rfl, rfl⟩
  · rw [prepareData_calls, h1, h2]; rfl
  · rw [prepareData_glyphs, hstr]; simp

/-- Witness for C1: the all-absent detection on a freshly constructed sink. -/
theorem prepareData_absent_draws_only_rectangle_witness :
    (ImageWindow.prepareDataOut noDefaultNotation absentResult).str = "" ∧
    (ImageWindow.prepareData noDefaultNotation absentResult freshWindow).frame_.calls =
      freshWindow.frame_.calls ++
      [cv.DrawCall.putText "" ⟨absentResult.location.x, absentResult.location.y - 15⟩
          cv.HersheyFonts.FONT_HERSHEY_COMPLEX_SMALL (8 / 10) (cv.Scalar.of3 0 0 255),
        cv.DrawCall.rectangle absentResult.location (cv.Scalar.of3 100 100 100) 1] ∧
    (ImageWindow.prepareData noDefaultNotation absentResult freshWindow).frame_.glyphs =
      freshWindow.frame_.glyphs ∧
    (ImageWindow.prepareData noDefaultNotation absentResult freshWindow).frame_.rectCalls =
      freshWindow.frame_.rectCalls ++
      [cv.DrawCall.rectangle absentResult.location (cv.Scalar.of3 100 100 100) 1] ∧
    (ImageWindow.prepareData noDefaultNotation absentResult freshWindow).frame_.data =
      freshWindow.frame_.data ∧
    (ImageWindow.prepareData noDefaultNotation absentResult freshWindow).window_name_ =
      freshWindow.window_name_ :=
  prepareData_absent_draws_only_rectangle noDefaultNotation absentResult freshWindow rfl rfl rfl

/-- C2: in the end-to-end scenario (feed a 100x100 black frame, then `prepareData` on location
`(10,10,20,20)`, label `face`, confidence `0.5`, gender and age absent) the frame carries
exactly two drawing calls: the text `face detection confidence: face: 0.500,` in colour
`(0,0,255)` anchored at `(10,-5)`, and the rectangle with corners `(10,10)` and `(30,30)` in
colour `(100,100,100)`; no other character is rendered.  In general, for every result with
`confidence >= 0` whose `male_prob` or `age` is the sentinel `-1`, the rendered text is
`face detection confidence: <label>: <confidence in fixed notation, 3 decimals>,`, anchored
at `(location.x, location.y - 15)`, where the 3-decimal rendering is that of a whole number
of thousandths within half a thousandth of the confidence. -/
theorem prepareData_confidence_only (dflt : Nat → ℚ → String) :
    (∀ self : ImageWindow,
      (ImageWindow.prepareData dflt scenarioResult
          (ImageWindow.feedFrame (cv.Mat.zeros 100 100) self)).frame_
        = ⟨100, 100, List.replicate (100 * 100) (cv.Scalar.of3 0 0 0),
            [cv.DrawCall.putText "face detection confidence: face: 0.500," ⟨10, -5⟩
                cv.HersheyFonts.FONT_HERSHEY_COMPLEX_SMALL (8 / 10) ⟨0, 0, 255, 0⟩,
              cv.DrawCall.rectangle ⟨10, 10, 20, 20⟩ ⟨100, 100, 100, 0⟩ 1]⟩ ∧
      (ImageWindow.prepareData dflt scenarioResult
          (ImageWindow.feedFrame (cv.Mat.zeros 100 100) self)).frame_.glyphs
        = "face detection confidence: face: 0.500,".data ∧
      cv.Rect.tl scenarioResult.location = (10, 10) ∧
      cv.Rect.br scenarioResult.location = (30, 30)) ∧
    (∀ (result : DetectionClass.Result) (self : ImageWindow),
      result.confidence ≥ 0 → (result.male_prob = -1 ∨ result.age = -1) →
      (ImageWindow.prepareData dflt result self).frame_.calls = self.frame_.calls ++
        [cv.DrawCall.putText
            ("face detection confidence: " ++ result.label ++ ": " ++
              fixedStr 3 result.confidence ++ ",")
            ⟨result.location.x, result.location.y - 15⟩
            cv.HersheyFonts.FONT_HERSHEY_COMPLEX_SMALL (8 / 10) (cv.Scalar.of3 0 0 255),
          cv.DrawCall.rectangle result.location (cv.Scalar.of3 100 100 100) 1] ∧
      ∃ n : Nat, |(n : ℚ) / 1000 - result.confidence| ≤ 1 / 2000 ∧
        fixedStr 3 result.confidence
          = Nat.repr (n / 1000) ++ "." ++ zeroPad 3 (Nat.repr (n % 1000)) ∧
        (zeroPad 3 (Nat.repr (n % 1000))).length = 3) := by
  have hgen : ∀ (result : DetectionClass.Result) (self : ImageWindow),
      result.confidence ≥ 0 → (result.male_prob = -1 ∨ result.age = -1) →
      (ImageWindow.prepareData dflt result self).frame_.calls = self.frame_.calls ++
        [cv.DrawCall.putText
            ("face detection confidence: " ++ result.label ++ ": " ++
              fixedStr 3 result.confidence ++ ",")
            ⟨result.location.x, result.location.y - 15⟩
            cv.HersheyFonts.FONT_HERSHEY_COMPLEX_SMALL (8 / 10) (cv.Scalar.of3 0 0 255),
          cv.DrawCall.rectangle result.location (cv.Scalar.of3 100 100 100) 1] := by
    intro result self hc hs
    have h2 : genderAgeBlock result = "" := by
      apply genderAgeBlock_of_neg
      rcases hs with h | h
      · exact Or.inl (by rw [h]; norm_num)
      · exact Or.inr (by rw [h]; norm_num)
    have h1 : confidenceBlock result = "face detection confidence: " ++ result.label ++ ": " ++
        fixedStr 3 result.confidence ++ "," := by
      unfold confidenceBlock
      rw [if_pos hc]
    rw [prepareData_calls, h1, h2, String.append_empty]
  refine ⟨fun self => ?_, fun result self hc hs => ⟨hgen result self hc hs, ?_⟩⟩
  · have hcalls := hgen scenarioResult (ImageWindow.feedFrame (cv.Mat.zeros 100 100) self)
      (by norm_num [scenarioResult]) (Or.inl rfl)
    have htext : "face detection confidence: " ++ scenarioResult.label ++ ": " ++
        fixedStr 3 scenarioResult.confidence ++ ","
        = "face detection confidence: face: 0.500," := by
      show "face detection confidence: " ++ "face" ++ ": " ++ fixedStr 3 (1 / 2) ++ ","
        = "face detection confidence: face: 0.500,"
      rw [fixedStr_three_half]
      decide
    rw [htext] at hcalls
    refine ⟨?_, ?_, rfl, rfl⟩
    · have hrest : ∀ m : cv.Mat, m.rows = 100 → m.cols = 100 →
          m.data = List.replicate (100 * 100) (cv.Scalar.of3 0 0 0) →
          m.calls = [cv.DrawCall.putText "face detection confidence: face: 0.500," ⟨10, -5⟩
                cv.HersheyFonts.FONT_HERSHEY_COMPLEX_SMALL (8 / 10) ⟨0, 0, 255, 0⟩,
              cv.DrawCall.rectangle ⟨10, 10, 20, 20⟩ ⟨100, 100, 100, 0⟩ 1] →
          m = ⟨100, 100, List.replicate (100 * 100) (cv.Scalar.of3 0 0 0),
            [cv.DrawCall.putText "face detection confidence: face: 0.500," ⟨10, -5⟩
                cv.HersheyFonts.FONT_HERSHEY_COMPLEX_SMALL (8 / 10) ⟨0, 0, 255, 0⟩,
              cv.DrawCall.rectangle ⟨10, 10, 20, 20⟩ ⟨100, 100, 100, 0⟩ 1]⟩ := by
        intro m h1 h2 h3 h4
        cases m
        simp only at h1 h2 h3 h4
        subst h1 h2 h3 h4
        rfl
      exact hrest _ rfl rfl rfl hcalls
    · unfold cv.Mat.glyphs
      rw [hcalls]
      rfl
  · obtain ⟨n, hn, hstr⟩ := fixedStr_rounds 3 result.confidence hc
    refine ⟨n, ?_, ?_, fraction_length 3 n (by norm_num)⟩
    · rw [abs_le] at hn ⊢
      constructor <;> linarith [hn.1, hn.2]
    · rw [hstr]
      unfold scaledStr
      simp [String.append_assoc]

/-- Witness for C2: the scenario detection on a freshly constructed sink. -/
theorem prepareData_confidence_only_witness :
    scenarioResult.confidence ≥ 0 ∧
    (scenarioResult.male_prob = -1 ∨ scenarioResult.age = -1) ∧
    (ImageWindow.prepareData noDefaultNotation scenarioResult freshWindow).frame_.calls =
      freshWindow.frame_.calls ++
        [cv.DrawCall.putText
            ("face detection confidence: " ++ scenarioResult.label ++ ": " ++
              fixedStr 3 scenarioResult.confidence ++ ",")
            ⟨scenarioResult.location.x, scenarioResult.location.y - 15⟩
            cv.HersheyFonts.FONT_HERSHEY_COMPLEX_SMALL (8 / 10) (cv.Scalar.of3 0 0 255),
          cv.DrawCall.rectangle scenarioResult.location (cv.Scalar.of3 100 100 100) 1] :=
  ⟨by norm_num [scenarioResult], Or.inl rfl,
    ((prepareData_confidence_only noDefaultNotation).2 scenarioResult freshWindow
      (by norm_num [scenarioResult]) (Or.inl rfl)).1⟩

/-- With `male_prob >= 0` and `age >= 0` the gender/age block is present. -/
theorem genderAgeBlock_of_nonneg (result : DetectionClass.Result)
    (hm : result.male_prob ≥ 0) (ha : result.age ≥ 0) :
    genderAgeBlock result = "Gender: " ++ (if result.male_prob > 1 / 2 then "M" else "F") ++
      ",Age: ," ++ fixedStr 0 result.age ++ "," := by
  unfold genderAgeBlock
  rw [if_pos ⟨hm, ha⟩]

/-- Appending to a fixed left part: equal right parts give equal strings. -/
theorem append_right_congr (a b c : String) (h : b = c) : a ++ b = a ++ c := by
  rw [h]

/-- C3: the text `prepareData` composes is what it renders onto the frame.  For every result
with `male_prob >= 0` and `age >= 0` that text is the confidence block followed by
`Gender: `, the label `M` when `male_prob > 0.5` and `F` otherwise (so `F` at exactly `0.5`),
`,Age: ,`, the age in fixed notation with zero decimals (a whole number within one half of
the age, printed without a decimal point) and a comma; for `male_prob` at `0.9` and `age` at
`30.4` (each up to a thousandth) the label is `M` and the age is printed as `30`.  When
`male_prob < 0` or `age < 0` the text is the confidence block alone. -/
theorem prepareData_gender_age (dflt : Nat → ℚ → String) (result : DetectionClass.Result) :
    (∀ self : ImageWindow,
      (ImageWindow.prepareData dflt result self).frame_.glyphs
        = self.frame_.glyphs ++ (ImageWindow.prepareDataOut dflt result).str.data) ∧
    (result.male_prob ≥ 0 → result.age ≥ 0 →
      (ImageWindow.prepareDataOut dflt result).str
        = confidenceBlock result ++ ("Gender: " ++
            (if result.male_prob > 1 / 2 then "M" else "F") ++ ",Age: ," ++
            fixedStr 0 result.age ++ ",") ∧
      (result.male_prob > 1 / 2 → (ImageWindow.prepareDataOut dflt result).str
        = confidenceBlock result ++ ("Gender: " ++ "M" ++ ",Age: ," ++
            fixedStr 0 result.age ++ ",")) ∧
      (result.male_prob ≤ 1 / 2 → (ImageWindow.prepareDataOut dflt result).str
        = confidenceBlock result ++ ("Gender: " ++ "F" ++ ",Age: ," ++
            fixedStr 0 result.age ++ ",")) ∧
      (∃ n : Nat, |(n : ℚ) - result.age| ≤ 1 / 2 ∧ fixedStr 0 result.age = Nat.repr n) ∧
      (|result.male_prob - 9 / 10| ≤ 1 / 1000 → |result.age - 152 / 5| ≤ 1 / 1000 →
        (ImageWindow.prepareDataOut dflt result).str
          = confidenceBlock result ++ "Gender: M,Age: ,30,")) ∧
    (result.male_prob < 0 ∨ result.age < 0 →
      (ImageWindow.prepareDataOut dflt result).str = confidenceBlock result) := by
  refine ⟨fun self => prepareData_glyphs dflt result self, fun hm ha => ?_, fun hneg => ?_⟩
  · have hblock := genderAgeBlock_of_nonneg result hm ha
    have htext : (ImageWindow.prepareDataOut dflt result).str
        = confidenceBlock result ++ ("Gender: " ++
            (if result.male_prob > 1 / 2 then "M" else "F") ++ ",Age: ," ++
            fixedStr 0 result.age ++ ",") := by
      rw [prepareDataOut_str, hblock]
    refine ⟨htext, fun hgt => ?_, fun hle => ?_, ?_, fun h9 h30 => ?_⟩
    · rw [htext, if_pos hgt]
    · rw [htext, if_neg (not_lt.mpr hle)]
    · obtain ⟨n, hn, hstr⟩ := fixedStr_rounds 0 result.age ha
      refine ⟨n, by simpa using hn, ?_⟩
      rw [hstr]
      unfold scaledStr
      simp
    · rw [abs_le] at h9 h30
      have hgt : result.male_prob > 1 / 2 := by linarith [h9.1]
      have hage : fixedStr 0 result.age = "30" :=
        fixedStr_zero_thirty result.age (by linarith [h30.1]) (by linarith [h30.2])
      rw [htext, if_pos hgt, hage]
      exact append_right_congr _ _ _ (by decide)
  · rw [prepareDataOut_str, genderAgeBlock_of_neg result hneg, String.append_empty]

/-- Witness for C3: confidence `0.5`, male probability `0.9`, age `30.4` gives the gender
label `M` and the age `30`; the scenario detection, whose gender and age are absent, gives
the confidence text alone. -/
theorem prepareData_gender_age_witness :
    (ImageWindow.prepareDataOut noDefaultNotation fullResult).str
      = confidenceBlock fullResult ++ "Gender: M,Age: ,30," ∧
    (ImageWindow.prepareDataOut noDefaultNotation scenarioResult).str
      = confidenceBlock scenarioResult :=
  ⟨((prepareData_gender_age noDefaultNotation fullResult).2.1
      (by norm_num [fullResult]) (by norm_num [fullResult])).2.2.2.2
      (by norm_num [fullResult]) (by norm_num [fullResult]),
    (prepareData_gender_age noDefaultNotation scenarioResult).2.2
      (Or.inl (by norm_num [scenarioResult]))⟩

/-- The confidence block of a result with label `face` and confidence `0.5`. -/
theorem confidenceBlock_fullResult :
    confidenceBlock fullResult = "face detection confidence: face: 0.500," := by
  unfold confidenceBlock
  rw [if_pos (by norm_num [fullResult])]
  show "face detection confidence: " ++ "face" ++ ": " ++ fixedStr 3 (1 / 2) ++ ","
    = "face detection confidence: face: 0.500,"
  rw [fixedStr_three_half]
  decide

/-- The gender/age block of a result with male probability `0.9` and age `30.4`. -/
theorem genderAgeBlock_fullResult : genderAgeBlock fullResult = "Gender: M,Age: ,30," := by
  rw [genderAgeBlock_of_nonneg fullResult (by norm_num [fullResult])
    (by norm_num [fullResult])]
  rw [if_pos (by norm_num [fullResult]),
    fixedStr_zero_thirty fullResult.age (by norm_num [fullResult]) (by norm_num [fullResult])]
  decide

/-- C5, as stated, fails: on a result with `male_prob = 0.9 >= 0` and `age = 30.4 >= 0`, fed to
a freshly constructed sink, `prepareData` issues one text-rendering call, not two; its single
string holds the confidence text and the gender/age text together. -/
theorem prepareData_two_text_calls_counterexample :
    fullResult.male_prob ≥ 0 ∧ fullResult.age ≥ 0 ∧
    (ImageWindow.prepareData noDefaultNotation fullResult freshWindow).frame_.textCalls
      = [cv.DrawCall.putText "face detection confidence: face: 0.500,Gender: M,Age: ,30,"
          ⟨10, -5⟩ cv.HersheyFonts.FONT_HERSHEY_COMPLEX_SMALL (8 / 10) ⟨0, 0, 255, 0⟩] ∧
    ¬ ((ImageWindow.prepareData noDefaultNotation fullResult freshWindow).frame_.textCalls.length
      = freshWindow.frame_.textCalls.length + 2) := by
  have hcalls : (ImageWindow.prepareData noDefaultNotation fullResult
      freshWindow).frame_.textCalls
      = [cv.DrawCall.putText "face detection confidence: face: 0.500,Gender: M,Age: ,30,"
          ⟨10, -5⟩ cv.HersheyFonts.FONT_HERSHEY_COMPLEX_SMALL (8 / 10) ⟨0, 0, 255, 0⟩] := by
    rw [prepareData_textCalls, confidenceBlock_fullResult, genderAgeBlock_fullResult]
    rfl
  refine ⟨by norm_num [fullResult], by norm_num [fullResult], hcalls, ?_⟩
  rw [hcalls]
  decide

/-- C5, amended: for every result with `male_prob >= 0` and `age >= 0`, `prepareData` issues
exactly one text-rendering call, anchored at `(location.x, location.y - 15)`; its string is
the confidence block followed by the gender/age text, so the gender/age text is appended to
the same composed string and no second text call is made. -/
theorem prepareData_single_text_call (dflt : Nat → ℚ → String)
    (result : DetectionClass.Result) (self : ImageWindow)
    (hm : result.male_prob ≥ 0) (ha : result.age ≥ 0) :
    (ImageWindow.prepareData dflt result self).frame_.textCalls = self.frame_.textCalls ++
      [cv.DrawCall.putText
          (confidenceBlock result ++ ("Gender: " ++
            (if result.male_prob > 1 / 2 then "M" else "F") ++ ",Age: ," ++
            fixedStr 0 result.age ++ ","))
          ⟨result.location.x, result.location.y - 15⟩
          cv.HersheyFonts.FONT_HERSHEY_COMPLEX_SMALL (8 / 10) (cv.Scalar.of3 0 0 255)] ∧
    (ImageWindow.prepareData dflt result self).frame_.textCalls.length
      = self.frame_.textCalls.length + 1 := by
  have h := prepareData_textCalls dflt result self
  rw [genderAgeBlock_of_nonneg result hm ha] at h
  refine ⟨h, ?_⟩
  rw [h]
  simp

/-- Witness for the amended C5: the result with male probability `0.9` and age `30.4` on a
freshly constructed sink. -/
theorem prepareData_single_text_call_witness :
    fullResult.male_prob ≥ 0 ∧ fullResult.age ≥ 0 ∧
    (ImageWindow.prepareData noDefaultNotation fullResult freshWindow).frame_.textCalls.length
      = freshWindow.frame_.textCalls.length + 1 :=
  ⟨by norm_num [fullResult], by norm_num [fullResult],
    (prepareData_single_text_call noDefaultNotation fullResult freshWindow
      (by norm_num [fullResult]) (by norm_num [fullResult])).2⟩

/-- C10: for every detection result, `prepareData` issues exactly one text-rendering call and
then exactly one rectangle call.  The rendered string is the confidence block (present when
`confidence >= 0`, else empty) followed by the gender/age block (present when
`male_prob >= 0` and `age >= 0`, else empty); the gender/age block is `Gender: `, `M` or `F`,
`,Age: ,`, the age with zero decimals, and a comma: a comma stands between `Age: ` and the
age. -/
theorem prepareData_one_text_then_one_rectangle (dflt : Nat → ℚ → String)
    (result : DetectionClass.Result) (self : ImageWindow) :
    (ImageWindow.prepareData dflt result self).frame_.calls = self.frame_.calls ++
      [cv.DrawCall.putText
          ((if result.confidence ≥ 0 then
              "face detection confidence: " ++ result.label ++ ": " ++
                fixedStr 3 result.confidence ++ ","
            else "") ++
            (if result.male_prob ≥ 0 ∧ result.age ≥ 0 then
              "Gender: " ++ (if result.male_prob > 1 / 2 then "M" else "F") ++ ",Age: ," ++
                fixedStr 0 result.age ++ ","
            else ""))
          ⟨result.location.x, result.location.y - 15⟩
          cv.HersheyFonts.FONT_HERSHEY_COMPLEX_SMALL (8 / 10) (cv.Scalar.of3 0 0 255),
        cv.DrawCall.rectangle result.location (cv.Scalar.of3 100 100 100) 1] ∧
    (ImageWindow.prepareData dflt result self).frame_.textCalls.length
      = self.frame_.textCalls.length + 1 ∧
    (ImageWindow.prepareData dflt result self).frame_.rectCalls.length
      = self.frame_.rectCalls.length + 1 := by
  refine ⟨prepareData_calls dflt result self, ?_, ?_⟩
  · rw [prepareData_textCalls]; simp
  · rw [prepareData_rectCalls]; simp

/-! ## The claims about `feedFrame` and `handleOutput` -/

/-- C6: for all frames `f1`, `f2` and every sink state, `feedFrame f1` followed by
`feedFrame f2` leaves the sink in the state `feedFrame f2` alone gives: the current frame is
`f2`, nothing of `f1` remains, a following `prepareData` or `handleOutput` draws onto `f2`
(its result is `f2` with the new drawing calls) and `handleOutput` presents that image; the
window name is unchanged by `feedFrame`. -/
theorem feedFrame_twice (f1 f2 : cv.Mat) (self : ImageWindow) (dflt : Nat → ℚ → String)
    (result : DetectionClass.Result) (text : String) (gui : cv.HighGui) :
    ImageWindow.feedFrame f2 (ImageWindow.feedFrame f1 self) = ImageWindow.feedFrame f2 self ∧
    (ImageWindow.feedFrame f2 (ImageWindow.feedFrame f1 self)).frame_ = f2 ∧
    (ImageWindow.feedFrame f2 (ImageWindow.feedFrame f1 self)).window_name_
      = self.window_name_ ∧
    (ImageWindow.feedFrame f1 self).window_name_ = self.window_name_ ∧
    (ImageWindow.prepareData dflt result
        (ImageWindow.feedFrame f2 (ImageWindow.feedFrame f1 self))).frame_
      = cv.rectangle
          (cv.putText f2 (ImageWindow.prepareDataOut dflt result).str
            ⟨result.location.x, result.location.y - 15⟩
            cv.HersheyFonts.FONT_HERSHEY_COMPLEX_SMALL (8 / 10) (cv.Scalar.of3 0 0 255))
          result.location (cv.Scalar.of3 100 100 100) 1 ∧
    ImageWindow.handleOutput text (ImageWindow.feedFrame f2 (ImageWindow.feedFrame f1 self)) gui
      = (⟨cv.putText f2 text ⟨0, 65⟩ cv.HersheyFonts.FONT_HERSHEY_TRIPLEX (5 / 10)
            (cv.Scalar.of3 255 0 0), self.window_name_⟩,
          gui ++ [(self.window_name_,
            cv.putText f2 text ⟨0, 65⟩ cv.HersheyFonts.FONT_HERSHEY_TRIPLEX (5 / 10)
              (cv.Scalar.of3 255 0 0))]) :=
  ⟨rfl, rfl, rfl, rfl, rfl, rfl⟩

/-- C9: for every text `t` and every sink state, `handleOutput t` adds one drawing call to the
current frame, the text `t` at the anchor `(0, 65)` in the colour `(255, 0, 0)`, and then
presents that annotated frame under the sink's window name; anchor and colour are the same
for every `t` and every frame, the pixel payload is untouched and the window name is
unchanged. -/
theorem handleOutput_draws_then_shows (t : String) (self : ImageWindow) (gui : cv.HighGui) :
    (ImageWindow.handleOutput t self gui).1.frame_.calls = self.frame_.calls ++
      [cv.DrawCall.putText t ⟨0, 65⟩ cv.HersheyFonts.FONT_HERSHEY_TRIPLEX (5 / 10)
        ⟨255, 0, 0, 0⟩] ∧
    (ImageWindow.handleOutput t self gui).1.frame_.data = self.frame_.data ∧
    (ImageWindow.handleOutput t self gui).2
      = gui ++ [(self.window_name_, (ImageWindow.handleOutput t self gui).1.frame_)] ∧
    (ImageWindow.handleOutput t self gui).1.window_name_ = self.window_name_ :=
  ⟨rfl, rfl, rfl, rfl⟩

/-! ## The claims about `Input::BaseInputDevice` -/

/-- C7: for every width `w`, height `h`, flag `b` and every device state (initialised or
not), `setWidth w` then `getWidth` returns `w`, `setHeight h` then `getHeight` returns `h`,
and `setInitStatus b` then `isInit` returns `b`; each setter stores its argument as given and
leaves the other two members as they were. -/
theorem accessor_round_trip (d : Input.BaseInputDevice) (w h : Nat) (b : Bool) :
    (Input.BaseInputDevice.setWidth w d).getWidth = w ∧
    (Input.BaseInputDevice.setHeight h d).getHeight = h ∧
    (Input.BaseInputDevice.setInitStatus b d).isInit = b ∧
    Input.BaseInputDevice.setWidth w d = ⟨w, d.height_, d.is_init_⟩ ∧
    Input.BaseInputDevice.setHeight h d = ⟨d.width_, h, d.is_init_⟩ ∧
    Input.BaseInputDevice.setInitStatus b d = ⟨d.width_, d.height_, b⟩ :=
  ⟨rfl, rfl, rfl, rfl, rfl, rfl⟩

/-- C8: a freshly constructed input device, before any setter call, reports
`isInit() == false`. -/
theorem fresh_device_not_init : Input.BaseInputDevice.new.isInit = false := rfl

/-! ## The decimal `0.8765` at three decimals

`0.8765` lies exactly half way between `0.876` and `0.877`, and it is not a binary
floating-point value.  What a program holding "`0.8765`" prints with three decimals is
therefore decided by the binary rounding of the literal: the nearest binary32 value lies
above the tie, the nearest binary64 value below it. -/

/-- The binary32 value nearest to `0.8765` is `7352615 / 2^23` (within half a unit in the
last place, `2^-25`), it lies above `0.8765`, and fixed notation with three decimals prints
it as `0.877`. -/
theorem fixedStr_three_binary32_0_8765 :
    |(7352615 / 8388608 : ℚ) - 8765 / 10000| < 1 / 2 ^ 25 ∧
    (8765 / 10000 : ℚ) < 7352615 / 8388608 ∧
    fixedStr 3 (7352615 / 8388608) = "0.877" := by
  refine ⟨by rw [abs_lt]; constructor <;> norm_num, by norm_num, ?_⟩
  rw [fixedStr_of_nonneg 3 _ (by norm_num),
    roundHalfEven_eq_of_near _ 877 (by norm_num) (by norm_num)]
  decide

/-- The binary64 value nearest to `0.8765` is `7894810146780479 / 2^53` (within half a unit
in the last place, `2^-54`), it lies below `0.8765`, and fixed notation with three decimals
prints it as `0.876`. -/
theorem fixedStr_three_binary64_0_8765 :
    |(7894810146780479 / 9007199254740992 : ℚ) - 8765 / 10000| < 1 / 2 ^ 54 ∧
    (7894810146780479 / 9007199254740992 : ℚ) < 8765 / 10000 ∧
    fixedStr 3 (7894810146780479 / 9007199254740992) = "0.876" := by
  refine ⟨by rw [abs_lt]; constructor <;> norm_num, by norm_num, ?_⟩
  rw [fixedStr_of_nonneg 3 _ (by norm_num),
    roundHalfEven_eq_of_near _ 876 (by norm_num) (by norm_num)]
  decide
